import Mathlib

/-!
Shallow embedding of the NASA Space Apps dashboard client
(`src/static/script.js`): metric bar chart, SVG trend line chart,
map marker handling, and the query flow with its loading flag.
Machine numbers are modelled as rationals; JavaScript dynamic values
as an explicit `JSVal` type with JavaScript truthiness.
-/

namespace NasaDash

/-- A dynamically typed JavaScript value, as far as the script inspects
them: numbers, strings, booleans, null and undefined. -/
inductive JSVal where
  | num (q : ℚ)
  | str (s : String)
  | boolean (b : Bool)
  | null
  | undefined
deriving DecidableEq, Repr

/-- JavaScript truthiness of a `JSVal` (`0`, `""`, `false`, `null`,
`undefined` are falsy). -/
def truthy : JSVal → Bool
  | JSVal.num q => decide (q ≠ 0)
  | JSVal.str s => decide (s ≠ "")
  | JSVal.boolean b => b
  | JSVal.null => false
  | JSVal.undefined => false

/-- JavaScript `s || d` on strings: `d` when `s` is empty, else `s`. -/
def strOrS (s d : String) : String :=
  if s = "" then d else s

/-- JavaScript `o || d` where `o` is an optional string field of a
response object: absent or empty falls back to `d`. -/
def strOr (o : Option String) (d : String) : String :=
  match o with
  | some s => strOrS s d
  | none => d

/-- JavaScript `v || d` where `v` is an optional numeric field:
absent or zero falls back to `d`. -/
def jsNumOr (v : Option ℚ) (d : ℚ) : ℚ :=
  match v with
  | some q => if q = 0 then d else q
  | none => d

/-- One entry of the static metric table (`METRICS`, script.js lines 6-12):
checkbox identifier, response key, display label, bar color. -/
structure Metric where
  id : String
  key : String
  label : String
  color : String
deriving DecidableEq, Repr

/-- The static metric table, script.js lines 6-12. -/
def METRICS : List Metric :=
  [⟨"hot", "very_hot", "Very hot", "#ff6b6b"⟩,
   ⟨"cold", "very_cold", "Very cold", "#6b9bff"⟩,
   ⟨"wet", "very_wet", "Very wet", "#70d6ff"⟩,
   ⟨"windy", "very_windy", "Very windy", "#7dd3c0"⟩,
   ⟨"uncomfortable", "uncomfortable", "Uncomfortable", "#ff9ff3"⟩]

/-- The `probabilities` field of a response: absent/null (`none`) or an
object, modelled as an association list from response keys to values. -/
def Probs : Type := Option (List (String × JSVal))

/-- Bar-chart probability lookup, script.js line 56:
`(data.probabilities && typeof data.probabilities[m.key] === 'number')
? data.probabilities[m.key] : 0`. -/
def probFor (probs : Probs) (key : String) : ℚ :=
  match probs with
  | some pm =>
      match pm.lookup key with
      | some (JSVal.num q) => q
      | _ => 0
  | none => 0

/-- One rendered bar item, script.js lines 57-63: bar height percentage,
color, label text, and the printed percentage under the label. -/
structure Bar where
  heightPct : ℚ
  color : String
  label : String
  printedPct : ℚ
deriving DecidableEq, Repr

/-- The bar item built for one metric, script.js lines 55-63. -/
def barFor (probs : Probs) (m : Metric) : Bar :=
  { heightPct := probFor probs m.key
    color := m.color
    label := m.label
    printedPct := probFor probs m.key }

/-- `useDefs`, script.js line 53: empty selection keeps the whole metric
table, a non-empty one filters it by membership of the checkbox id. -/
def renderedMetrics (selected : List String) : List Metric :=
  if selected.length = 0 then METRICS
  else METRICS.filter (fun m => selected.contains m.id)

/-- The full bar chart contents rebuilt by the `useDefs.forEach` loop,
script.js lines 55-65. -/
def renderBars (selected : List String) (probs : Probs) : List Bar :=
  (renderedMetrics selected).map (barFor probs)

/-- One point of the response `time_series`, script.js usage of
`p.date`, `p.hot`, `p.wet`: date string plus optional numeric values. -/
structure TSPoint where
  date : String
  hot : Option ℚ
  wet : Option ℚ
deriving DecidableEq, Repr

/-- `p.hot || 0`. -/
def hotOr0 (p : TSPoint) : ℚ := jsNumOr p.hot 0

/-- `p.wet || 0`. -/
def wetOr0 (p : TSPoint) : ℚ := jsNumOr p.wet 0

/-- An SVG element appended by `drawLineChart`: text, axis line, poly-line
path (as the list of its points), marker circle, or legend swatch. -/
inductive SvgElem where
  | text (x y : ℚ) (fontSize : Option ℚ) (fill : String) (content : String)
  | line (x1 y1 x2 y2 : ℚ) (stroke : String)
  | path (pts : List (ℚ × ℚ)) (stroke : String)
  | circle (cx cy r : ℚ) (fill : String)
  | rect (x y w h : ℚ) (fill : String)
deriving DecidableEq, Repr

/-- `viewW`, script.js line 91. -/
def viewW : ℚ := 500
/-- `viewH`, script.js line 91. -/
def viewH : ℚ := 200
/-- `leftPad`, script.js line 100. -/
def leftPad : ℚ := 40
/-- `rightPad`, script.js line 100. -/
def rightPad : ℚ := 20
/-- `topPad`, script.js line 100. -/
def topPad : ℚ := 20
/-- `bottomPad`, script.js line 100. -/
def bottomPad : ℚ := 30
/-- `width = viewW - leftPad - rightPad`, script.js line 101. -/
def width : ℚ := viewW - leftPad - rightPad
/-- `height = viewH - topPad - bottomPad`, script.js line 102. -/
def height : ℚ := viewH - topPad - bottomPad

/-- `ts.slice(-6)`, script.js line 99: the windowed (at most last 6)
points of the time series. -/
def windowed (ts : List TSPoint) : List TSPoint :=
  ts.drop (ts.length - 6)

/-- `xFor`, script.js line 104: x position of point `i` of `n`, evenly
spaced, a single point centered. -/
def xFor (n : ℕ) (i : ℕ) : ℚ :=
  leftPad + (if n = 1 then width / 2 else (i : ℚ) * (width / ((n : ℚ) - 1)))

/-- `Math.max(...values, 1)` for the hot series, script.js line 106. -/
def maxHotOf (l : List TSPoint) : ℚ :=
  (l.map hotOr0).foldr max 1

/-- `Math.max(...values, 1)` for the wet series, script.js line 107. -/
def maxWetOf (l : List TSPoint) : ℚ :=
  (l.map wetOr0).foldr max 1

/-- The guarded ratio of `buildPath`, script.js line 112:
`(maxVal === 0) ? 0 : (v / maxVal)`. -/
def ratioOf (v maxVal : ℚ) : ℚ :=
  if maxVal = 0 then 0 else v / maxVal

/-- `buildPath`, script.js lines 109-116: the path points for one series,
given the series values, its scaling maximum and the window size `n`. -/
def buildPath (arr : List ℚ) (maxVal : ℚ) (n : ℕ) : List (ℚ × ℚ) :=
  arr.enum.map (fun iv =>
    (xFor n iv.1, topPad + (height - ratioOf iv.2 maxVal * height)))

/-- The three per-point elements of the `last.forEach` loop, script.js
lines 125-132: two marker circles and one x-axis date label. -/
def pointElems (n : ℕ) (maxHot maxWet : ℚ) (ip : ℕ × TSPoint) : List SvgElem :=
  let x := xFor n ip.1
  let yHot := topPad + (height - (hotOr0 ip.2 / maxHot) * height)
  let yWet := topPad + (height - (wetOr0 ip.2 / maxWet) * height)
  [SvgElem.circle x yHot 3 "#ff6b6b",
   SvgElem.circle x yWet 3 "#70d6ff",
   SvgElem.text x (topPad + height + 18) (some 11) "#666" ip.2.date]

/-- All elements of the `last.forEach` loop, script.js lines 125-132. -/
def pointMarkers (last : List TSPoint) (maxHot maxWet : ℚ) : List SvgElem :=
  last.enum.flatMap (pointElems last.length maxHot maxWet)

/-- The fixed legend, script.js lines 134-137. -/
def legend : List SvgElem :=
  [SvgElem.rect (viewW - 140) topPad 10 10 "#ff6b6b",
   SvgElem.text (viewW - 124) (topPad + 9) (some 11) "#333" "Temp (°C)",
   SvgElem.rect (viewW - 140) (topPad + 18) 10 10 "#70d6ff",
   SvgElem.text (viewW - 124) (topPad + 27) (some 11) "#333" "Rain (mm)"]

/-- `drawLineChart`, script.js lines 89-138: the full list of SVG
elements written into the chart for a given time series. -/
def drawLineChart (ts : List TSPoint) : List SvgElem :=
  if ts.length = 0 then
    [SvgElem.text 20 (viewH / 2) none "#999" "No time-series data"]
  else
    let last := windowed ts
    let n := last.length
    let maxHot := maxHotOf last
    let maxWet := maxWetOf last
    [SvgElem.line leftPad topPad leftPad (topPad + height) "#eee",
     SvgElem.path (buildPath (last.map hotOr0) maxHot n) "#ff6b6b",
     SvgElem.path (buildPath (last.map wetOr0) maxWet n) "#70d6ff"]
    ++ pointMarkers last maxHot maxWet
    ++ legend

/-- The x-axis date labels among a list of rendered elements (the
`fill="#666"` texts emitted once per windowed point). -/
def pointLabels (es : List SvgElem) : List String :=
  es.filterMap (fun e =>
    match e with
    | SvgElem.text _ _ _ f c => if f = "#666" then some c else none
    | _ => none)

/-- The number of marker circles among a list of rendered elements. -/
def circleCount (es : List SvgElem) : ℕ :=
  (es.filter (fun e =>
    match e with
    | SvgElem.circle _ _ _ _ => true
    | _ => false)).length

/-- Pad a digit string with leading zeros to length 5. -/
def pad5 (s : String) : String :=
  String.mk (List.replicate (5 - s.length) '0') ++ s

/-- JavaScript `x.toFixed(5)`: sign, then `|x|` rounded half-up to 5
decimal places (ties pick the larger candidate, per the ECMAScript
`toFixed` specification). -/
def toFixed5 (q : ℚ) : String :=
  let sign := if q < 0 then "-" else ""
  let n : ℕ := (⌊|q| * 100000 + 1 / 2⌋ : ℤ).toNat
  sign ++ toString (n / 100000) ++ "." ++ pad5 (toString (n % 100000))

/-- The parsed JSON body of a `/check` response, as the fields the script
reads: `coords`, `city`, `probabilities`, `time_series` (each possibly
absent). -/
structure CheckResponse where
  coords : Option (List ℚ)
  city : Option String
  probabilities : Probs
  time_series : Option (List TSPoint)

/-- The summary card written into `#infoCard`, script.js lines 73-79:
the hot and wet values interpolated into the markup, the displayed city
name, and the query date. -/
structure InfoCard where
  hp : JSVal
  wp : JSVal
  city : String
  date : String
deriving DecidableEq, Repr

/-- Summary-card heat value, script.js line 69:
`(data.probabilities && data.probabilities.very_hot)
? data.probabilities.very_hot : 0`. -/
def hpOf (data : CheckResponse) : JSVal :=
  match data.probabilities with
  | some pm =>
      match pm.lookup "very_hot" with
      | some v => if truthy v then v else JSVal.num 0
      | none => JSVal.num 0
  | none => JSVal.num 0

/-- Summary-card wet value, script.js line 70, analogous for
`very_wet`. -/
def wpOf (data : CheckResponse) : JSVal :=
  match data.probabilities with
  | some pm =>
      match pm.lookup "very_wet" with
      | some v => if truthy v then v else JSVal.num 0
      | none => JSVal.num 0
  | none => JSVal.num 0

/-- `data.city || city || 'Selected Location'`, script.js lines 44
and 71, where `city` already carries the "Karachi" default. -/
def actualCityOf (data : CheckResponse) (city : String) : String :=
  strOr data.city (strOrS city "Selected Location")

/-- The Leaflet map as the script observes it: current view (center and
zoom), the number of marker layers on the map, and the popup label of
the marker added last. -/
structure MapRec where
  center : ℚ × ℚ
  zoom : ℕ
  markers : ℕ
  markerLabel : String
deriving DecidableEq, Repr

/-- The DOM and global state the script mutates: the three input fields,
the checked metric checkbox ids (in document order), the body `loading`
class, the three rendered output regions, the global `map` (null before
`DOMContentLoaded`), and whether the global `marker` is non-null. -/
structure DomState where
  cityInput : String
  pinInput : String
  dateInput : String
  checkedIds : List String
  loadingClass : Bool
  barChart : List Bar
  lineChart : List SvgElem
  infoCard : Option InfoCard
  map : Option MapRec
  markerVar : Bool

/-- Modelled from the spec: the page's initial DOM state (`index.html`
is not part of the reviewed material). The body starts without the
`loading` class, the inputs are empty, no checkbox is checked and the
output regions are empty; script.js line 4 then fills the date input
with the current date, passed here as `today`. -/
def initialDom (today : String) : DomState :=
  { cityInput := ""
    pinInput := ""
    dateInput := today
    checkedIds := []
    loadingClass := false
    barChart := []
    lineChart := []
    infoCard := none
    map := none
    markerVar := false }

/-- The `DOMContentLoaded` handler, script.js lines 186-199: creates the
map centered on Karachi at zoom 10 and adds the initial marker. -/
def initMap (dom : DomState) : DomState :=
  { dom with
      map := some { center := (24.86, 67.00), zoom := 10,
                    markers := 1, markerLabel := "Karachi" }
      markerVar := true }

/-- How the awaited `/check` request settles, as the script distinguishes
the cases: parsed JSON on success, a non-ok HTTP status (script.js
line 30 throws `Server ${status}`), or a thrown fetch/JSON error. -/
inductive FetchOutcome where
  | ok (data : CheckResponse)
  | httpError (status : ℕ)
  | fetchError (msg : String)

/-- The `try`/`catch` part of `checkWeather`, script.js lines 23-83,
starting from the state with the loading class set: on success it
updates map, bar chart, line chart and summary card; on failure it
returns the state unchanged together with the alert message. -/
def checkWeatherBody (dom1 : DomState) (city : String)
    (selected : List String) (outcome : FetchOutcome) :
    DomState × Option String :=
  match outcome with
  | FetchOutcome.httpError status =>
      (dom1, some ("Oops: Server " ++ toString status ++
        ". Try a past date or change city/coords."))
  | FetchOutcome.fetchError msg =>
      (dom1, some ("Oops: " ++ msg ++
        ". Try a past date or change city/coords."))
  | FetchOutcome.ok data =>
      let dom2 :=
        match data.coords with
        | some cs =>
            if cs.length = 2 then
              match dom1.map with
              | some mp =>
                  let lat := cs.getD 0 0
                  let lon := cs.getD 1 0
                  let displayName := actualCityOf data city
                  { dom1 with
                      map := some
                        { center := (lat, lon), zoom := 10,
                          markers :=
                            (if dom1.markerVar then mp.markers - 1
                             else mp.markers) + 1,
                          markerLabel := displayName }
                      markerVar := true }
              | none => dom1
            else dom1
        | none => dom1
      let dom3 := { dom2 with
        barChart := renderBars selected data.probabilities
        lineChart := drawLineChart (data.time_series.getD [])
        infoCard := some
          { hp := hpOf data, wp := wpOf data,
            city := actualCityOf data city, date := dom1.dateInput } }
      (dom3, none)

/-- `checkWeather`, script.js lines 14-87: reads the inputs (city
defaulting to "Karachi"), sets the loading class, runs the request body,
and clears the loading class in the `finally` block on every path. -/
def checkWeather (dom : DomState) (outcome : FetchOutcome) :
    DomState × Option String :=
  let city := strOrS dom.cityInput "Karachi"
  let selected := dom.checkedIds
  let dom1 := { dom with loadingClass := true }
  let r := checkWeatherBody dom1 city selected outcome
  ({ r.1 with loadingClass := false }, r.2)

/-- The `map.on('click')` handler, script.js lines 202-215: replaces the
marker at the clicked point, writes `lat,lon` (5 decimal places) into
the pin input, and clears the city input. Registered only once the map
exists; a missing map leaves the state unchanged. -/
def mapClick (lat lon : ℚ) (dom : DomState) : DomState :=
  match dom.map with
  | none => dom
  | some mp =>
      let latS := toFixed5 lat
      let lonS := toFixed5 lon
      { dom with
          map := some { mp with
            markers :=
              (if dom.markerVar then mp.markers - 1 else mp.markers) + 1,
            markerLabel := "Selected Location: " ++ latS ++ ", " ++ lonS }
          markerVar := true
          pinInput := latS ++ "," ++ lonS
          cityInput := "" }

/-- The events that mutate the map/marker state: page initialization,
a map click, and a completed `checkWeather` call. -/
inductive Event where
  | domLoaded
  | click (lat lon : ℚ)
  | check (outcome : FetchOutcome)

/-- One event step on the DOM state. -/
def step (e : Event) (dom : DomState) : DomState :=
  match e with
  | Event.domLoaded => initMap dom
  | Event.click lat lon => mapClick lat lon dom
  | Event.check outcome => (checkWeather dom outcome).1

/-- Run a sequence of events from a state. -/
def runEvents (events : List Event) (dom : DomState) : DomState :=
  events.foldl (fun s e => step e s) dom

/-- The marker invariant: the global `marker` is non-null and the map
carries exactly one marker layer. -/
def markerInvB (dom : DomState) : Bool :=
  dom.markerVar &&
    (match dom.map with
     | some mp => mp.markers == 1
     | none => false)

/-- The first metric of the table (id "hot"), used as a concrete
instance in witnesses. -/
def mHot : Metric := ⟨"hot", "very_hot", "Very hot", "#ff6b6b"⟩

/-- A concrete 7-point time series used in witnesses. -/
def ts7 : List TSPoint :=
  [⟨"d1", some 1, some 2⟩, ⟨"d2", some 3, some 4⟩, ⟨"d3", some 5, some 6⟩,
   ⟨"d4", some 7, some 8⟩, ⟨"d5", some 9, some 10⟩, ⟨"d6", some 11, some 12⟩,
   ⟨"d7", some 13, some 14⟩]

/-- A concrete single-point time series used in witnesses. -/
def ts1 : List TSPoint := [⟨"d1", some 50, none⟩]

/-- The initialized page state used in witnesses: the initial DOM after
the `DOMContentLoaded` handler ran, with date "2025-01-01". -/
def dom0 : DomState := step Event.domLoaded (initialDom "2025-01-01")

/-- A response whose `probabilities.very_hot` holds the truthy
non-numeric string "oops". -/
def c6Data : CheckResponse :=
  { coords := none, city := none,
    probabilities := some [("very_hot", JSVal.str "oops")], time_series := none }

/-- A response with every optional field absent. -/
def noProbData : CheckResponse :=
  { coords := none, city := none, probabilities := none, time_series := none }

/-! ## Theorems -/

lemma probFor_eq_zero {probs : Probs} {key : String}
    (h : probs = none ∨ ∃ pm, probs = some pm ∧
      (pm.lookup key = none ∨
       ∃ v, pm.lookup key = some v ∧ ∀ q : ℚ, v ≠ JSVal.num q)) :
    probFor probs key = 0 := by
  rcases h with rfl | ⟨pm, rfl, h | ⟨v, hv, hnum⟩⟩
  · rfl
  · simp [probFor, h]
  · cases v with
    | num q => exact absurd rfl (hnum q)
    | str s => simp [probFor, hv]
    | boolean b => simp [probFor, hv]
    | null => simp [probFor, hv]
    | undefined => simp [probFor, hv]

/-- C1: for every metric rendered in the bar chart, if the response's
probabilities mapping is absent, lacks the metric's response key, or
maps it to a non-numeric value, then both the bar's height percentage
and its printed label are 0. -/
theorem c1_missing_prob_bar_zero (selected : List String) (probs : Probs)
    (m : Metric) (hm : m ∈ renderedMetrics selected)
    (h : probs = none ∨ ∃ pm, probs = some pm ∧
      (pm.lookup m.key = none ∨
       ∃ v, pm.lookup m.key = some v ∧ ∀ q : ℚ, v ≠ JSVal.num q)) :
    (barFor probs m).heightPct = 0 ∧ (barFor probs m).printedPct = 0 ∧
      barFor probs m ∈ renderBars selected probs :=
  ⟨probFor_eq_zero h, probFor_eq_zero h, List.mem_map_of_mem _ hm⟩

/-- Witness for C1: with `probabilities = {very_hot: "x"}` (a string),
the "hot" bar renders with height 0 and printed label 0. -/
theorem c1_witness :
    (barFor (some [("very_hot", JSVal.str "x")]) mHot).heightPct = 0 ∧
    (barFor (some [("very_hot", JSVal.str "x")]) mHot).printedPct = 0 ∧
    barFor (some [("very_hot", JSVal.str "x")]) mHot ∈
      renderBars [] (some [("very_hot", JSVal.str "x")]) :=
  c1_missing_prob_bar_zero [] _ mHot (by decide)
    (Or.inr ⟨_, rfl, Or.inr ⟨JSVal.str "x", rfl, fun q hq => JSVal.noConfusion hq⟩⟩)

/-- C2: an empty metric selection renders all 5 metrics of the static
table; a non-empty selection renders exactly and only the metrics whose
id is selected; in both cases the rendered metrics are a sublist of
`METRICS`, i.e. appear in the table's defined order, and the bar list
is their image under `barFor`. -/
theorem c2_selection_filtering (selected : List String) :
    (selected = [] → renderedMetrics selected = METRICS ∧ METRICS.length = 5) ∧
    (selected ≠ [] →
      (∀ m, m ∈ renderedMetrics selected ↔ m ∈ METRICS ∧ m.id ∈ selected) ∧
      List.Sublist (renderedMetrics selected) METRICS) ∧
    (∀ probs, renderBars selected probs = (renderedMetrics selected).map (barFor probs)) := by
  refine ⟨?_, ?_, fun _ => rfl⟩
  · rintro rfl; exact ⟨rfl, rfl⟩
  · intro hs
    have hlen : selected.length ≠ 0 := by simpa using hs
    have hrm : renderedMetrics selected =
        METRICS.filter (fun m => selected.contains m.id) := by
      simp [renderedMetrics, hlen]
    constructor
    · intro m
      rw [hrm, List.mem_filter]
      simp [List.contains, List.elem_iff]
    · rw [hrm]; exact List.filter_sublist _

/-- Witness for C2: the empty selection renders the full table, and the
selection `["wet"]` renders a sublist of the table. -/
theorem c2_witness :
    renderedMetrics [] = METRICS ∧ List.Sublist (renderedMetrics ["wet"]) METRICS :=
  ⟨((c2_selection_filtering []).1 rfl).1,
   ((c2_selection_filtering ["wet"]).2.1 (by decide)).2⟩

/-- C10: a non-empty selection none of whose identifiers matches a metric
id renders zero bars, and selections agreeing on the metric ids (unknown
identifiers ignored) render the same metrics. -/
theorem c10_unknown_ids (selected : List String) (probs : Probs) :
    (selected ≠ [] → (∀ m ∈ METRICS, m.id ∉ selected) →
      renderBars selected probs = []) ∧
    (∀ s2 : List String, selected ≠ [] → s2 ≠ [] →
      (∀ m ∈ METRICS, (m.id ∈ selected ↔ m.id ∈ s2)) →
      renderedMetrics selected = renderedMetrics s2) := by
  constructor
  · intro hs hnone
    have hlen : selected.length ≠ 0 := by simpa using hs
    have hrm : renderedMetrics selected =
        METRICS.filter (fun m => selected.contains m.id) := by
      simp [renderedMetrics, hlen]
    have hfil : METRICS.filter (fun m => selected.contains m.id) = [] := by
      simp only [List.filter_eq_nil_iff]
      intro m hm
      simpa [List.contains, List.elem_iff] using hnone m hm
    simp only [renderBars, hrm, hfil, List.map_nil]
  · intro s2 h1 h2 hiff
    have hl1 : selected.length ≠ 0 := by simpa using h1
    have hl2 : s2.length ≠ 0 := by simpa using h2
    simp only [renderedMetrics, if_neg hl1, if_neg hl2]
    apply List.filter_congr
    intro m hm
    simp [List.contains, List.elem_iff, hiff m hm]

/-- Witness for C10: the selection `["bogus"]` renders no bars, and the
unknown id "bogus" in `["hot", "bogus"]` is ignored. -/
theorem c10_witness :
    renderBars ["bogus"] none = [] ∧
    renderedMetrics ["hot", "bogus"] = renderedMetrics ["hot"] :=
  ⟨(c10_unknown_ids ["bogus"] none).1 (by decide) (by decide),
   (c10_unknown_ids ["hot", "bogus"] none).2 ["hot"] (by decide) (by decide) (by decide)⟩

lemma pointLabels_append (a b : List SvgElem) :
    pointLabels (a ++ b) = pointLabels a ++ pointLabels b := by
  simp [pointLabels]

lemma circleCount_append (a b : List SvgElem) :
    circleCount (a ++ b) = circleCount a + circleCount b := by
  simp [circleCount, List.filter_append]

lemma pointLabels_flatMap (n : ℕ) (mh mw : ℚ) :
    ∀ (k : ℕ) (l : List TSPoint),
      pointLabels ((List.enumFrom k l).flatMap (pointElems n mh mw)) =
        l.map TSPoint.date := by
  intro k l
  induction l generalizing k with
  | nil => rfl
  | cons p rest ih =>
      simp [List.enumFrom, pointLabels, pointElems, List.filterMap_append] at ih ⊢
      exact ih _

lemma circleCount_flatMap (n : ℕ) (mh mw : ℚ) :
    ∀ (k : ℕ) (l : List TSPoint),
      circleCount ((List.enumFrom k l).flatMap (pointElems n mh mw)) =
        2 * l.length := by
  intro k l
  induction l generalizing k with
  | nil => rfl
  | cons p rest ih =>
      simp [List.enumFrom, circleCount, pointElems, List.filter_append] at ih ⊢
      rw [ih (k + 1)]
      ring

lemma pointLabels_pointMarkers (l : List TSPoint) (mh mw : ℚ) :
    pointLabels (pointMarkers l mh mw) = l.map TSPoint.date := by
  simp only [pointMarkers, List.enum]
  exact pointLabels_flatMap _ _ _ 0 _

lemma circleCount_pointMarkers (l : List TSPoint) (mh mw : ℚ) :
    circleCount (pointMarkers l mh mw) = 2 * l.length := by
  simp only [pointMarkers, List.enum]
  exact circleCount_flatMap _ _ _ 0 _

/-- C3: a time series longer than 6 renders exactly its last 6 points in
order (the window is the dropped-prefix suffix of length 6, the per-point
date labels are those of the window, and 12 marker circles are drawn);
an empty series renders only the placeholder text, hence no path, circle
or axis-label elements. -/
theorem c3_window (ts : List TSPoint) :
    (6 < ts.length →
      (windowed ts).length = 6 ∧
      ts = ts.take (ts.length - 6) ++ windowed ts ∧
      pointLabels (drawLineChart ts) = (windowed ts).map TSPoint.date ∧
      circleCount (drawLineChart ts) = 12) ∧
    (ts.length = 0 →
      drawLineChart ts =
        [SvgElem.text 20 (viewH / 2) none "#999" "No time-series data"]) := by
  constructor
  · intro h6
    have hne : ¬ ts.length = 0 := by omega
    have hw : (windowed ts).length = 6 := by
      simp only [windowed, List.length_drop]; omega
    refine ⟨hw, (List.take_append_drop _ _).symm, ?_, ?_⟩
    · simp only [drawLineChart, if_neg hne, pointLabels_append,
        pointLabels_pointMarkers]
      simp [pointLabels, legend]
    · simp only [drawLineChart, if_neg hne, circleCount_append,
        circleCount_pointMarkers, hw]
      simp [circleCount, legend]
  · intro h0
    obtain rfl := List.length_eq_zero.mp h0
    rfl

/-- Witness for C3: the 7-point series `ts7` renders its last 6 points
and the empty series renders only the placeholder. -/
theorem c3_witness :
    ((windowed ts7).length = 6 ∧
     ts7 = ts7.take (ts7.length - 6) ++ windowed ts7 ∧
     pointLabels (drawLineChart ts7) = (windowed ts7).map TSPoint.date ∧
     circleCount (drawLineChart ts7) = 12) ∧
    drawLineChart ([] : List TSPoint) =
      [SvgElem.text 20 (viewH / 2) none "#999" "No time-series data"] :=
  ⟨(c3_window ts7).1 (by decide), (c3_window []).2 rfl⟩

lemma one_le_foldr_max (l : List ℚ) : 1 ≤ l.foldr max 1 := by
  induction l with
  | nil => exact le_refl 1
  | cons a t ih => exact le_trans ih (le_max_right a _)

lemma le_foldr_max {x : ℚ} {l : List ℚ} (h : x ∈ l) : x ≤ l.foldr max 1 := by
  induction l with
  | nil => cases h
  | cons a t ih =>
      rcases List.mem_cons.mp h with rfl | h
      · exact le_max_left _ _
      · exact le_trans (ih h) (le_max_right _ _)

lemma foldr_max_attained (l : List ℚ) :
    l.foldr max 1 = 1 ∨ ∃ x ∈ l, l.foldr max 1 = x := by
  induction l with
  | nil => exact Or.inl rfl
  | cons a t ih =>
      rcases le_total a (t.foldr max 1) with h | h
      · rw [List.foldr_cons, max_eq_right h]
        rcases ih with h1 | ⟨x, hx, he⟩
        · exact Or.inl h1
        · exact Or.inr ⟨x, List.mem_cons_of_mem _ hx, he⟩
      · rw [List.foldr_cons, max_eq_left h]
        exact Or.inr ⟨a, List.mem_cons_self _ _, rfl⟩

/-- C8: for a non-empty windowed series, each per-series scaling maximum
is at least 1 (hence nonzero), bounds every windowed value of its series,
is either 1 or attained by a windowed value, and the guarded ratio of
`buildPath` reduces to plain division — the `maxVal === 0` branch is
unreachable. -/
theorem c8_scaling_max (ts : List TSPoint) (_hne : ts ≠ []) :
    (1 ≤ maxHotOf (windowed ts) ∧ maxHotOf (windowed ts) ≠ 0 ∧
     (∀ p ∈ windowed ts, hotOr0 p ≤ maxHotOf (windowed ts)) ∧
     (maxHotOf (windowed ts) = 1 ∨
       ∃ p ∈ windowed ts, maxHotOf (windowed ts) = hotOr0 p) ∧
     (∀ v, ratioOf v (maxHotOf (windowed ts)) = v / maxHotOf (windowed ts))) ∧
    (1 ≤ maxWetOf (windowed ts) ∧ maxWetOf (windowed ts) ≠ 0 ∧
     (∀ p ∈ windowed ts, wetOr0 p ≤ maxWetOf (windowed ts)) ∧
     (maxWetOf (windowed ts) = 1 ∨
       ∃ p ∈ windowed ts, maxWetOf (windowed ts) = wetOr0 p) ∧
     (∀ v, ratioOf v (maxWetOf (windowed ts)) = v / maxWetOf (windowed ts))) := by
  constructor
  · have h1 : 1 ≤ maxHotOf (windowed ts) := one_le_foldr_max _
    have h0 : maxHotOf (windowed ts) ≠ 0 := by intro h; rw [h] at h1; linarith
    refine ⟨h1, h0, ?_, ?_, fun v => by simp [ratioOf, h0]⟩
    · intro p hp
      exact le_foldr_max (List.mem_map_of_mem _ hp)
    · rcases foldr_max_attained ((windowed ts).map hotOr0) with h | ⟨x, hx, he⟩
      · exact Or.inl h
      · obtain ⟨p, hp, rfl⟩ := List.mem_map.mp hx
        exact Or.inr ⟨p, hp, he⟩
  · have h1 : 1 ≤ maxWetOf (windowed ts) := one_le_foldr_max _
    have h0 : maxWetOf (windowed ts) ≠ 0 := by intro h; rw [h] at h1; linarith
    refine ⟨h1, h0, ?_, ?_, fun v => by simp [ratioOf, h0]⟩
    · intro p hp
      exact le_foldr_max (List.mem_map_of_mem _ hp)
    · rcases foldr_max_attained ((windowed ts).map wetOr0) with h | ⟨x, hx, he⟩
      · exact Or.inl h
      · obtain ⟨p, hp, rfl⟩ := List.mem_map.mp hx
        exact Or.inr ⟨p, hp, he⟩

/-- Witness for C8: on the single-point series `ts1` both scaling maxima
are at least 1 and the hot one is nonzero. -/
theorem c8_witness :
    1 ≤ maxHotOf (windowed ts1) ∧ maxHotOf (windowed ts1) ≠ 0 ∧
      1 ≤ maxWetOf (windowed ts1) := by
  obtain ⟨⟨a, b, -, -, -⟩, ⟨c, -⟩⟩ := c8_scaling_max ts1 (by decide)
  exact ⟨a, b, c⟩

/-- C9: when the window contains exactly one point, every marker circle
drawn for it sits at the horizontal center of the drawing area,
`leftPad + width / 2 = 260`. -/
theorem c9_single_point_center (ts : List TSPoint) (h1 : ts.length = 1) :
    (∀ cx cy r f, SvgElem.circle cx cy r f ∈ drawLineChart ts →
      cx = leftPad + width / 2) ∧ leftPad + width / 2 = 260 := by
  obtain ⟨p, rfl⟩ := List.length_eq_one.mp h1
  refine ⟨?_, by norm_num [leftPad, width, viewW, rightPad]⟩
  intro cx cy r f hmem
  simp [drawLineChart, windowed, pointMarkers, List.enum, List.enumFrom,
    pointElems, legend, xFor] at hmem
  rcases hmem with ⟨h, -⟩ | ⟨h, -⟩ <;> exact h

/-- Witness for C9: the horizontal center computed for the single-point
series `ts1` is 260. -/
theorem c9_witness : leftPad + width / 2 = 260 :=
  (c9_single_point_center ts1 rfl).2

/-- C4: the loading flag is false before the first query and is false
again after every completed `checkWeather` call, whatever the outcome —
the `finally` block clears it on success and on every failure path. -/
theorem c4_loading_cleared (today : String) (dom : DomState)
    (outcome : FetchOutcome) :
    (initialDom today).loadingClass = false ∧
    ((checkWeather dom outcome).1).loadingClass = false :=
  ⟨rfl, rfl⟩

/-- C5: after a map click at (lat, lon) on an initialized page, the pin
input equals the two coordinates formatted to 5 decimal places joined by
a comma, and the city input is empty. -/
theorem c5_click_sets_fields (lat lon : ℚ) (dom : DomState)
    (h : dom.map.isSome = true) :
    (mapClick lat lon dom).pinInput = toFixed5 lat ++ "," ++ toFixed5 lon ∧
    (mapClick lat lon dom).cityInput = "" := by
  cases hm : dom.map with
  | none => rw [hm] at h; cases h
  | some mp => simp [mapClick, hm]

/-- Witness for C5: clicking at (1.25, -2.5) writes "1.25000,-2.50000"
into the pin input and clears the city input. -/
theorem c5_witness :
    ((mapClick (5 / 4) (-5 / 2) dom0).pinInput =
       toFixed5 (5 / 4) ++ "," ++ toFixed5 (-5 / 2) ∧
     (mapClick (5 / 4) (-5 / 2) dom0).cityInput = "") ∧
    toFixed5 (5 / 4) ++ "," ++ toFixed5 (-5 / 2) = "1.25000,-2.50000" := by
  refine ⟨c5_click_sets_fields (5 / 4) (-5 / 2) dom0 rfl, ?_⟩
  have h1 : ¬ ((5 : ℚ) / 4 < 0) := by norm_num
  have h2 : ((-5 : ℚ) / 2 < 0) := by norm_num
  have h3 : (⌊|(5 : ℚ) / 4| * 100000 + 1 / 2⌋ : ℤ) = 125000 := by
    rw [abs_of_nonneg (by norm_num : (0 : ℚ) ≤ 5 / 4)]
    norm_num
  have h4 : (⌊|(-5 : ℚ) / 2| * 100000 + 1 / 2⌋ : ℤ) = 250000 := by
    rw [abs_of_nonpos (by norm_num : ((-5 : ℚ) / 2) ≤ 0)]
    norm_num
  simp only [toFixed5, if_neg h1, if_pos h2, h3, h4]
  rfl

/-- Counterexample to C6 as stated: the summary card does not treat a
truthy non-numeric probability as 0 — with
`probabilities = {very_hot: "oops"}` the rendered card interpolates the
string "oops", not 0 (the card lookup uses truthiness, not a numeric
type check). -/
theorem c6_counterexample :
    hpOf c6Data = JSVal.str "oops" ∧ JSVal.str "oops" ≠ JSVal.num 0 ∧
    ((checkWeather dom0 (FetchOutcome.ok c6Data)).1).infoCard =
      some { hp := JSVal.str "oops", wp := JSVal.num 0,
             city := "Karachi", date := "2025-01-01" } :=
  ⟨rfl, by decide, rfl⟩

/-- C6 as amended: the renderers never fail on missing or malformed
fields — the summary card treats a missing or falsy probability value as
0 but interpolates a truthy value as-is even when non-numeric, a missing
response city falls back to the entered city name, and a successful
render always produces a summary card. -/
theorem c6_amended_defensive (data : CheckResponse) (dom : DomState) :
    (data.probabilities = none → hpOf data = JSVal.num 0 ∧ wpOf data = JSVal.num 0) ∧
    (∀ pm, data.probabilities = some pm → pm.lookup "very_hot" = none →
      hpOf data = JSVal.num 0) ∧
    (∀ pm v, data.probabilities = some pm → pm.lookup "very_hot" = some v →
      truthy v = false → hpOf data = JSVal.num 0) ∧
    (∀ pm v, data.probabilities = some pm → pm.lookup "very_hot" = some v →
      truthy v = true → hpOf data = v) ∧
    (data.city = none → ∀ c, c ≠ "" → actualCityOf data c = c) ∧
    ((checkWeather dom (FetchOutcome.ok data)).1).infoCard ≠ none := by
  refine ⟨?_, ?_, ?_, ?_, ?_, ?_⟩
  · intro h; exact ⟨by simp [hpOf, h], by simp [wpOf, h]⟩
  · intro pm h hl; simp [hpOf, h, hl]
  · intro pm v h hl ht; simp [hpOf, h, hl, ht]
  · intro pm v h hl ht; simp [hpOf, h, hl, ht]
  · intro h c hc; simp [actualCityOf, strOr, strOrS, h, hc]
  · intro hcontra; exact Option.noConfusion hcontra

/-- Witness for the amended C6: a response with no probabilities and no
city renders hp 0, keeps the entered city, and still produces a card. -/
theorem c6_witness :
    hpOf noProbData = JSVal.num 0 ∧ actualCityOf noProbData "Lahore" = "Lahore" ∧
    ((checkWeather dom0 (FetchOutcome.ok noProbData)).1).infoCard ≠ none := by
  obtain ⟨h1, -, -, -, h5, h6⟩ := c6_amended_defensive noProbData dom0
  exact ⟨(h1 rfl).1, h5 rfl "Lahore" (by decide), h6⟩

lemma markerInv_step (e : Event) (dom : DomState)
    (h : markerInvB dom = true) : markerInvB (step e dom) = true := by
  rcases e with _ | ⟨lat, lon⟩ | outcome
  · simp [step, initMap, markerInvB]
  · simp only [markerInvB, Bool.and_eq_true] at h
    obtain ⟨hv, hm⟩ := h
    cases hmap : dom.map with
    | none => rw [hmap] at hm; exact absurd hm (by simp)
    | some mp =>
        rw [hmap] at hm
        have hmk : mp.markers = 1 := by simpa using hm
        simp [step, mapClick, hmap, markerInvB, hv, hmk]
  · rcases outcome with data | status | msg
    · simp only [markerInvB, Bool.and_eq_true] at h
      obtain ⟨hv, hm⟩ := h
      cases hmap : dom.map with
      | none => rw [hmap] at hm; exact absurd hm (by simp)
      | some mp =>
          rw [hmap] at hm
          have hmk : mp.markers = 1 := by simpa using hm
          cases hco : data.coords with
          | none =>
              simp [step, checkWeather, checkWeatherBody, hco, markerInvB,
                hmap, hv, hmk]
          | some cs =>
              by_cases hlen : cs.length = 2 <;>
                simp [step, checkWeather, checkWeatherBody, hco, hlen, hmap,
                  markerInvB, hv, hmk]
    · simpa [step, checkWeather, checkWeatherBody, markerInvB] using h
    · simpa [step, checkWeather, checkWeatherBody, markerInvB] using h

lemma markerInv_run (events : List Event) (dom : DomState)
    (h : markerInvB dom = true) : markerInvB (runEvents events dom) = true := by
  induction events generalizing dom with
  | nil => exact h
  | cons e rest ih => exact ih _ (markerInv_step e dom h)

/-- C7: from the initialized page on, after any sequence of map clicks
and completed queries, the global marker is set and the map carries
exactly one marker layer — every placement removes the previous marker
first. -/
theorem c7_single_marker (today : String) (events : List Event) :
    markerInvB (runEvents events (step Event.domLoaded (initialDom today))) = true :=
  markerInv_run events _ rfl

end NasaDash
